import Mathlib

/-!
Formal model of the gwtony/logger Go package.

The package is a thin facade over the zap structured-logging library and the
lumberjack rotation library.  The repository carries two revisions of the same
file; they agree on all of the logic modelled below except for the initial
values of the package-level variables, so one set of definitions serves both,
with one initial state per revision (initialLoggerGo for src/logger.go,
initialLoggerPart000 for src/unnamed/part_000).

Modelling decisions, stated once here:
  - Go machine integers are modelled as Int; the only arithmetic the package
    performs on them is sign comparison, which cannot overflow.
  - Side effects are made explicit: a function that prints returns the list of
    lines it printed to standard output and to standard error.  The Go calls
    fmt.Printf write to standard output.
  - The filesystem and the runtime stack are an explicit environment Env:
    mkdirErr gives the result of os.MkdirAll for a directory (none on success,
    the error text on failure), and caller gives the frame that
    runtime.Caller 2 resolves to when evaluated inside Stack, namely the call
    site of the facade method caller; none when caller information is
    unavailable.
  - The zap logger is modelled by the data the package configures on it: the
    JSON/console mode, the list of write syncers of its core, and the level of
    the zap.NewAtomicLevelAt enabler.  Encoder key names and time encoding are
    constants in the source and are not needed by any claim.
  - Path splitting is modelled from the Go standard library sources of
    path/filepath (Base, Dir) and path (Clean, Join) for Unix separators,
    since the package targets Linux containers.
-/

namespace Logger

/-- zapcore.Level: an ordered severity.  The integer values mirror zapcore
(Debug = -1, Info = 0, ..., Fatal = 5); the zero value of the Go type is
Info. -/
inductive Level
  | debug
  | info
  | warn
  | error
  | dpanic
  | panic
  | fatal
deriving DecidableEq, Repr

/-- The numeric value of a zapcore.Level. -/
def Level.toInt : Level → Int
  | .debug => -1
  | .info => 0
  | .warn => 1
  | .error => 2
  | .dpanic => 3
  | .panic => 4
  | .fatal => 5

/-- One frame of the runtime call stack, as used by the Stack helper:
the source file, the name returned by runtime.FuncForPC, and the line. -/
structure Frame where
  file : String
  funcName : String
  line : Int
deriving DecidableEq, Repr

/-- The typed value of a zapcore.Field, restricted to the constructors the
package exposes (bool, int, int64, string, duration, error) plus the plain
string produced by Stack. -/
inductive FieldValue
  | bool (b : Bool)
  | int (i : Int)
  | int64 (i : Int)
  | str (s : String)
  | duration (nanos : Int)
  | err (text : String)
deriving DecidableEq, Repr

/-- zapcore.Field: an immutable key plus typed value. -/
structure Field where
  key : String
  value : FieldValue
deriving DecidableEq, Repr

/-- A zapcore.WriteSyncer as the package builds them: os.Stdout, the
lumberjack rotation writer produced by zapcore.AddSync, or the nil interface
value that newRollingFile returns when directory creation fails.  The
part_000 revision additionally sets LocalTime on the lumberjack logger; that
field is not observable by any claim and is omitted. -/
inductive Writer
  | stdout
  | rollingFile (filename : String) (maxSize maxAge maxBackups : Int)
  | nilWriter
deriving DecidableEq, Repr

/-- The Config structure.  The default field values are the Go zero values,
used when a composite literal omits a field and for the zero-valued
package-level variable DefaultLoggerConfig; the zero value of zapcore.Level
is 0, which is InfoLevel. -/
structure Config where
  encodeLogsAsJson : Bool := false
  fileLoggingEnabled : Bool := false
  directory : String := ""
  filename : String := ""
  maxSize : Int := 0
  maxBackups : Int := 0
  maxAge : Int := 0
  stackStrace : Bool := false
  logLevel : Level := Level.info
deriving DecidableEq, Repr

/-- One structured log record: severity, message and the fields passed at the
log site. -/
structure Record where
  level : Level
  msg : String
  fields : List Field
deriving DecidableEq, Repr

/-- The zap logger instance as configured by newZapLogger: the encoder mode,
the write syncers of the multi write syncer, and the level of the atomic
level enabler built at construction time. -/
structure ZapLogger where
  encodeAsJSON : Bool
  sink : List Writer
  minLevel : Level
deriving DecidableEq, Repr

/-- A zap core enables a record exactly when its level is at least the
configured minimum level. -/
def ZapLogger.enabled (l : ZapLogger) (lvl : Level) : Bool :=
  l.minLevel.toInt ≤ lvl.toInt

/-- Logging one record: when the level is enabled the record is written to
every write syncer of the sink, otherwise nothing is emitted. -/
def ZapLogger.log (l : ZapLogger) (lvl : Level) (msg : String) (fields : List Field) :
    List (Writer × Record) :=
  if l.enabled lvl then
    l.sink.map (fun w => (w, { level := lvl, msg := msg, fields := fields }))
  else
    []

/-- The ambient environment of a run: the filesystem answer to os.MkdirAll
per directory (none on success, the error text on failure), and the frame
that runtime.Caller 2 yields inside Stack, which is the call site of the
caller of the facade method (Stack is frame 0, the facade method frame 1,
its caller frame 2); none when caller information is unavailable. -/
structure Env where
  mkdirErr : String → Option String
  caller : Option Frame

/-- The package-level mutable state: DefaultZapLogger (none models a nil
pointer) and DefaultLoggerConfig. -/
structure LoggerState where
  defaultZapLogger : Option ZapLogger
  defaultLoggerConfig : Config
deriving DecidableEq, Repr

/-- The observable outcome of a call such as Init: the new package state,
the returned error (none on success), and the lines printed to standard
output and to standard error during the call. -/
structure RunResult where
  state : LoggerState
  err : Option String
  stdoutTrace : List String
  stderrTrace : List String
deriving DecidableEq, Repr

/-! ## Go standard library path handling (Unix)

These definitions embed the Go sources of path.Clean, path.Join,
filepath.Base and filepath.Dir for the Unix separator, which is the single
byte 0x2F.  Clean is a loop over the input; it is written here with an
explicit fuel argument so that it is structurally recursive, one unit of
fuel per loop iteration; every iteration consumes at least one character,
so length plus one units are always enough. -/

/-- The inner while loop of the dotdot case of path.Clean: starting from
index w, walk left while w is greater than dotdot and the buffered character
at w is not a separator; returns the final w.  The buffer is passed in full
because the loop reads characters at indices below the current write
position. -/
def popW (out : List Char) (dotdot : Nat) : Nat → Nat
  | 0 => 0
  | w + 1 =>
    if w + 1 > dotdot ∧ out.getD (w + 1) ' ' ≠ '/' then popW out dotdot w
    else w + 1

/-- The main loop of path.Clean.  The arguments are the remaining input, the
output buffer so far and the dotdot index; rooted tells whether the original
path was absolute. -/
def cleanGo (rooted : Bool) : Nat → List Char → List Char → Nat → List Char
  | 0, _, out, _ => out
  | _ + 1, [], out, _ => out
  | fuel + 1, c :: rest, out, dotdot =>
    if c = '/' then
      -- empty path element
      cleanGo rooted fuel rest out dotdot
    else if c = '.' ∧ (rest = [] ∨ rest.head? = some '/') then
      -- . element: skip
      cleanGo rooted fuel rest out dotdot
    else if c = '.' ∧ rest.head? = some '.' ∧ (rest.tail = [] ∨ rest.tail.head? = some '/') then
      -- .. element: remove the last element written, if any
      if out.length > dotdot then
        cleanGo rooted fuel rest.tail (out.take (popW out dotdot (out.length - 1))) dotdot
      else if rooted = false then
        let out2 := (if out.length > 0 then out ++ ['/'] else out) ++ ['.', '.']
        cleanGo rooted fuel rest.tail out2 out2.length
      else
        cleanGo rooted fuel rest.tail out dotdot
    else
      -- real path element: add a slash if needed, then copy the element
      let out2 :=
        (if (rooted ∧ out.length ≠ 1) ∨ (rooted = false ∧ out.length ≠ 0) then out ++ ['/'] else out)
          ++ (c :: rest).takeWhile (fun x => x ≠ '/')
      cleanGo rooted fuel ((c :: rest).dropWhile (fun x => x ≠ '/')) out2 dotdot

/-- Go path.Clean for Unix separators: returns the shortest equivalent path,
"." when the result would be empty. -/
def clean (p : String) : String :=
  match p.toList with
  | [] => "."
  | c :: cs =>
    let rooted := c = '/'
    let out :=
      if rooted then cleanGo true (cs.length + 1) cs ['/'] 1
      else cleanGo false (cs.length + 2) (c :: cs) [] 0
    if out = [] then "." else String.mk out

/-- Go path.Join restricted to two elements, as used by newRollingFile: the
non-empty elements joined by a separator, then cleaned; empty when both
elements are empty. -/
def pathJoin (a b : String) : String :=
  if a = "" ∧ b = "" then ""
  else if a = "" then clean b
  else if b = "" then clean a
  else clean (a ++ "/" ++ b)

/-- Go filepath.Base for Unix: "." for the empty path; otherwise trailing
separators are stripped, and the part after the last separator is returned,
or "/" when the path consists entirely of separators.  Note that the result
is never the empty string. -/
def basePath (p : String) : String :=
  if p = "" then "."
  else
    let cs := p.toList
    let cs1 := (cs.reverse.dropWhile (fun x => x = '/')).reverse
    let cs2 := (cs1.reverse.takeWhile (fun x => x ≠ '/')).reverse
    if cs2 = [] then "/" else String.mk cs2

/-- Go filepath.Dir for Unix: everything up to and including the final
separator, cleaned; "." when the path contains no separator. -/
def dirPath (p : String) : String :=
  let cs := p.toList
  let pre := (cs.reverse.dropWhile (fun x => x ≠ '/')).reverse
  clean (String.mk pre)

/-! ## The logger package operations -/

/-- The line that newRollingFile prints when os.MkdirAll fails; fmt.Printf
writes it to standard output. -/
def mkdirFailMsg (dir e : String) : String :=
  "Failed create log directory in " ++ dir ++ ", error: " ++ e ++ "\n"

/-- newRollingFile: creates the log directory with os.MkdirAll; on failure
prints the message to standard output and returns the nil write syncer;
on success returns the lumberjack rotation writer for the joined path.
Result: the writer, the lines printed to standard output, the lines printed
to standard error. -/
def newRollingFile (env : Env) (config : Config) : Writer × List String × List String :=
  match env.mkdirErr config.directory with
  | some e => (Writer.nilWriter, [mkdirFailMsg config.directory e], [])
  | none =>
    (Writer.rollingFile (pathJoin config.directory config.filename)
      config.maxSize config.maxAge config.maxBackups, [], [])

/-- newZapLogger: builds the encoder (console, or JSON when encodeAsJSON),
wires it to the output write syncers and to an atomic level holding the
LogLevel read from the package-level DefaultLoggerConfig at call time, which
is passed here explicitly. -/
def newZapLogger (defaultLoggerConfig : Config) (encodeAsJSON : Bool) (output : List Writer) :
    ZapLogger :=
  { encodeAsJSON := encodeAsJSON, sink := output, minLevel := defaultLoggerConfig.logLevel }

/-- Configure: builds the writer list starting from os.Stdout, appending the
rolling file writer when file logging is enabled; replaces DefaultZapLogger
with a logger over the multi write syncer (the level is read from the old
DefaultLoggerConfig inside newZapLogger), redirects the standard log (a side
effect outside this model), and finally stores the given config as
DefaultLoggerConfig.  Result: the new state, the lines printed to standard
output, the lines printed to standard error. -/
def Configure (env : Env) (st : LoggerState) (config : Config) :
    LoggerState × List String × List String :=
  if config.fileLoggingEnabled then
    let r := newRollingFile env config
    let lg := newZapLogger st.defaultLoggerConfig config.encodeLogsAsJson [Writer.stdout, r.1]
    ({ defaultZapLogger := some lg, defaultLoggerConfig := config }, r.2.1, r.2.2)
  else
    let lg := newZapLogger st.defaultLoggerConfig config.encodeLogsAsJson [Writer.stdout]
    ({ defaultZapLogger := some lg, defaultLoggerConfig := config }, [], [])

/-- SetLogLevel: exact, case-sensitive match on the four accepted names,
storing the corresponding zap level into DefaultLoggerConfig; any other
string returns the error and changes nothing. -/
def SetLogLevel (st : LoggerState) (level : String) : LoggerState × Option String :=
  if level = "debug" then
    ({ st with defaultLoggerConfig := { st.defaultLoggerConfig with logLevel := Level.debug } }, none)
  else if level = "info" then
    ({ st with defaultLoggerConfig := { st.defaultLoggerConfig with logLevel := Level.info } }, none)
  else if level = "warn" then
    ({ st with defaultLoggerConfig := { st.defaultLoggerConfig with logLevel := Level.warn } }, none)
  else if level = "error" then
    ({ st with defaultLoggerConfig := { st.defaultLoggerConfig with logLevel := Level.error } }, none)
  else
    (st, some "Bad log level")

/-- Init: splits the path with filepath.Base and filepath.Dir, validates,
builds the Config literal (fields not listed in the literal take their Go
zero values, in particular LogLevel stays InfoLevel), defaults the empty
level name to error, calls SetLogLevel and then Configure. -/
def Init (env : Env) (st : LoggerState) (file level : String) (size backup : Int)
    (stackstrace : Bool) : RunResult :=
  let name := basePath file
  if name = "" then
    { state := st, err := some "Bad file", stdoutTrace := [], stderrTrace := [] }
  else
    let dir := dirPath file
    let dir := if dir = "" then "./" else dir
    if size < 0 ∨ backup < 0 then
      { state := st, err := some "Bad size or backup", stdoutTrace := [], stderrTrace := [] }
    else
      let config : Config :=
        { encodeLogsAsJson := true, fileLoggingEnabled := true, directory := dir,
          filename := name, maxSize := size, maxBackups := backup, stackStrace := stackstrace }
      let level := if level = "" then "error" else level
      match SetLogLevel st level with
      | (st1, some e) =>
        { state := st1, err := some e, stdoutTrace := [], stderrTrace := [] }
      | (st1, none) =>
        let r := Configure env st1 config
        { state := r.1, err := none, stdoutTrace := r.2.1, stderrTrace := r.2.2 }

/-- Stack: formats the frame that runtime.Caller 2 yields (the call site of
the caller of the facade method) as file, function name and line, or the
empty string when the caller is unavailable, under the key stacktrace. -/
def Stack (env : Env) : Field :=
  let src :=
    match env.caller with
    | some f => f.file ++ ":" ++ f.funcName ++ ":" ++ toString f.line
    | none => ""
  { key := "stacktrace", value := FieldValue.str src }

/-! ## The facade

Each method reads DefaultZapLogger.  A nil DefaultZapLogger (modelled as
none) makes the method call fault with a nil pointer dereference, modelled
as the result none; otherwise the result is the list of writer and record
pairs the logger emits. -/

/-- Log.Debug: when StackStrace is set in DefaultLoggerConfig the Stack
field is appended to the supplied fields before logging at debug level. -/
def Log.Debug (env : Env) (st : LoggerState) (msg : String) (fields : List Field) :
    Option (List (Writer × Record)) :=
  match st.defaultZapLogger with
  | none => none
  | some l =>
    if st.defaultLoggerConfig.stackStrace then
      some (l.log Level.debug msg (fields ++ [Stack env]))
    else
      some (l.log Level.debug msg fields)

/-- Log.Info logs at info level through DefaultZapLogger. -/
def Log.Info (st : LoggerState) (msg : String) (fields : List Field) :
    Option (List (Writer × Record)) :=
  match st.defaultZapLogger with
  | none => none
  | some l => some (l.log Level.info msg fields)

/-- Log.Warn logs at warn level through DefaultZapLogger. -/
def Log.Warn (st : LoggerState) (msg : String) (fields : List Field) :
    Option (List (Writer × Record)) :=
  match st.defaultZapLogger with
  | none => none
  | some l => some (l.log Level.warn msg fields)

/-- Log.Error logs at error level through DefaultZapLogger. -/
def Log.Error (st : LoggerState) (msg : String) (fields : List Field) :
    Option (List (Writer × Record)) :=
  match st.defaultZapLogger with
  | none => none
  | some l => some (l.log Level.error msg fields)

/-- Log.Panic logs at panic level through DefaultZapLogger; the subsequent
unwinding of the calling goroutine is control flow outside this model. -/
def Log.Panic (st : LoggerState) (msg : String) (fields : List Field) :
    Option (List (Writer × Record)) :=
  match st.defaultZapLogger with
  | none => none
  | some l => some (l.log Level.panic msg fields)

/-- Log.Fatal logs at fatal level through DefaultZapLogger; the subsequent
process exit is outside this model. -/
def Log.Fatal (st : LoggerState) (msg : String) (fields : List Field) :
    Option (List (Writer × Record)) :=
  match st.defaultZapLogger with
  | none => none
  | some l => some (l.log Level.fatal msg fields)

/-! ## Initial states of the two revisions -/

/-- The package state at process start in src/logger.go: DefaultZapLogger is
initialized to newZapLogger over os.Stdout with console encoding, reading the
zero-valued DefaultLoggerConfig (so at InfoLevel), and DefaultLoggerConfig is
the zero Config. -/
def initialLoggerGo : LoggerState :=
  { defaultZapLogger := some (newZapLogger {} false [Writer.stdout]),
    defaultLoggerConfig := {} }

/-- The package state at process start in src/unnamed/part_000:
DefaultZapLogger is declared without an initializer, so it is the nil
pointer, and DefaultLoggerConfig is the zero Config. -/
def initialLoggerPart000 : LoggerState :=
  { defaultZapLogger := none, defaultLoggerConfig := {} }

/-! ## Spec-side definitions and concrete inputs used by the theorems -/

/-- The level-name table of the specification (accepted names debug, info,
warn, error, case-sensitive exact match), written from the words of the
spec for comparison with SetLogLevel. -/
def specLevelOfName (name : String) : Option Level :=
  if name = "debug" then some Level.debug
  else if name = "info" then some Level.info
  else if name = "warn" then some Level.warn
  else if name = "error" then some Level.error
  else none

/-- An environment in which every directory creation succeeds and no caller
information is available. -/
def env0 : Env :=
  { mkdirErr := fun _ => none, caller := none }

/-- An environment in which every directory creation fails with a permission
error. -/
def envMkdirFail : Env :=
  { mkdirErr := fun _ => some "permission denied", caller := none }

/-- An environment with caller information available. -/
def envWithCaller : Env :=
  { mkdirErr := fun _ => none,
    caller := some { file := "main.go", funcName := "main.main", line := 42 } }

/-- A file-logging configuration used as concrete input. -/
def cfgFileFail : Config :=
  { encodeLogsAsJson := true, fileLoggingEnabled := true,
    directory := "/var/log/app", filename := "app.log",
    maxSize := 10, maxBackups := 3 }

/-! ## Theorems -/

/-- C1: the spec states that Init with an empty filename component, in
particular with the empty path, fails with BadFile.  On the code, Go
filepath.Base never returns the empty string: for the empty path it returns
a dot, so the guard against an empty name is dead code and
Init with the empty path succeeds, configuring directory and filename both
equal to a dot. -/
theorem init_empty_path_no_error :
    basePath "" = "." ∧
    (Init env0 initialLoggerGo "" "error" 10 3 false).err = none ∧
    (Init env0 initialLoggerGo "" "error" 10 3 false).state.defaultLoggerConfig.directory = "." ∧
    (Init env0 initialLoggerGo "" "error" 10 3 false).state.defaultLoggerConfig.filename = "." := by
  refine ⟨rfl, ?_, ?_, ?_⟩ <;> rfl

/-- C2 counterexample: with file logging enabled and directory creation
failing, the failure message is printed to standard output (fmt.Printf) and
nothing is printed to standard error, contradicting the claim that the
failure is reported to the standard error stream; moreover the writer
appended in place of the rotation writer is the nil write syncer. -/
theorem configure_mkdir_failure_not_stderr :
    envMkdirFail.mkdirErr cfgFileFail.directory = some "permission denied" ∧
    (Configure envMkdirFail initialLoggerGo cfgFileFail).2.2 = [] ∧
    (Configure envMkdirFail initialLoggerGo cfgFileFail).2.1 =
      ["Failed create log directory in /var/log/app, error: permission denied\n"] ∧
    (Configure envMkdirFail initialLoggerGo cfgFileFail).1.defaultZapLogger =
      some { encodeAsJSON := true, sink := [Writer.stdout, Writer.nilWriter],
             minLevel := Level.info } := by
  refine ⟨rfl, ?_, ?_, ?_⟩ <;> rfl

/-- C2 (amended): when the directory cannot be created and file logging is
enabled, Configure does not abort and returns no error: the failure message
is printed to the standard output stream (not standard error), the nil
writer is appended to the sink in place of the rotation writer, and the rest
of the configuration step completes, publishing the new logger and storing
the config. -/
theorem configure_mkdir_failure_degrades (env : Env) (st : LoggerState) (config : Config)
    (e : String) (hf : config.fileLoggingEnabled = true)
    (he : env.mkdirErr config.directory = some e) :
    (Configure env st config).1 =
      { defaultZapLogger := some (ZapLogger.mk config.encodeLogsAsJson
          [Writer.stdout, Writer.nilWriter] st.defaultLoggerConfig.logLevel),
        defaultLoggerConfig := config } ∧
    (Configure env st config).2.1 = [mkdirFailMsg config.directory e] ∧
    (Configure env st config).2.2 = [] := by
  simp [Configure, hf, newRollingFile, he, newZapLogger]

/-- C2 witness: the amended theorem applied at a concrete failing
environment and configuration. -/
theorem configure_mkdir_failure_degrades_witness :
    cfgFileFail.fileLoggingEnabled = true ∧
    envMkdirFail.mkdirErr cfgFileFail.directory = some "permission denied" ∧
    (Configure envMkdirFail initialLoggerGo cfgFileFail).2.2 = [] :=
  ⟨rfl, rfl,
    (configure_mkdir_failure_degrades envMkdirFail initialLoggerGo cfgFileFail
      "permission denied" rfl rfl).2.2⟩

/-- C3: SetLogLevel succeeds exactly on the four names of the level table of
the spec (case-sensitive, exact match), storing the corresponding severity
and changing nothing else; on any other string it returns the invalid-level
error and leaves the whole state unchanged. -/
theorem setLogLevel_matches_level_table (st : LoggerState) (name : String) :
    match specLevelOfName name with
    | some lvl =>
        SetLogLevel st name =
          ({ st with defaultLoggerConfig := { st.defaultLoggerConfig with logLevel := lvl } },
           none)
    | none => SetLogLevel st name = (st, some "Bad log level") := by
  by_cases h1 : name = "debug"
  · simp [specLevelOfName, SetLogLevel, h1]
  by_cases h2 : name = "info"
  · simp [specLevelOfName, SetLogLevel, h1, h2]
  by_cases h3 : name = "warn"
  · simp [specLevelOfName, SetLogLevel, h1, h2, h3]
  by_cases h4 : name = "error"
  · simp [specLevelOfName, SetLogLevel, h1, h2, h3, h4]
  · simp [specLevelOfName, SetLogLevel, h1, h2, h3, h4]

/-- C4: the logger that Configure publishes is built at the minimum level
stored in the package configuration at the moment Configure is entered (the
level established by prior SetLogLevel calls) together with the JSON or
console mode requested in the argument; in particular the LogLevel field of
the argument itself plays no part in the filter of the new logger. -/
theorem configure_level_from_prior_config (env : Env) (st : LoggerState) (config : Config) :
    ∃ sink, (Configure env st config).1.defaultZapLogger =
      some { encodeAsJSON := config.encodeLogsAsJson, sink := sink,
             minLevel := st.defaultLoggerConfig.logLevel } := by
  by_cases h : config.fileLoggingEnabled
  · exact ⟨[Writer.stdout, (newRollingFile env config).1],
      by simp [Configure, h, newZapLogger]⟩
  · exact ⟨[Writer.stdout], by simp [Configure, h, newZapLogger]⟩

/-- C5 counterexample: in the src/unnamed/part_000 revision the
package-level DefaultZapLogger is declared without an initializer, so at
process start it is the nil pointer, and a facade call before Configure
faults instead of logging. -/
theorem facade_faults_on_nil_logger_part000 :
    initialLoggerPart000.defaultZapLogger = none ∧
    Log.Info initialLoggerPart000 "service started" [] = none ∧
    Log.Debug env0 initialLoggerPart000 "service started" [] = none :=
  ⟨rfl, rfl, rfl⟩

/-- C5 (amended): in the src/logger.go revision DefaultZapLogger is
initialized at process start to a console logger over standard output at the
zero-config level, so each of the six facade operations may be called before
Init or Configure without faulting. -/
theorem facade_safe_initial_logger_go (env : Env) (msg : String) (fields : List Field) :
    (Log.Debug env initialLoggerGo msg fields).isSome = true ∧
    (Log.Info initialLoggerGo msg fields).isSome = true ∧
    (Log.Warn initialLoggerGo msg fields).isSome = true ∧
    (Log.Error initialLoggerGo msg fields).isSome = true ∧
    (Log.Panic initialLoggerGo msg fields).isSome = true ∧
    (Log.Fatal initialLoggerGo msg fields).isSome = true :=
  ⟨rfl, rfl, rfl, rfl, rfl, rfl⟩

/-- C6: for every configuration the sink of the logger published by
Configure starts with standard output, the writer built by the rolling-file
constructor is appended exactly when file logging is enabled, and every
record the logger emits is written to standard output. -/
theorem configure_sink_stdout_always (env : Env) (st : LoggerState) (config : Config) :
    ∃ lg, (Configure env st config).1.defaultZapLogger = some lg ∧
      lg.sink = Writer.stdout ::
        (if config.fileLoggingEnabled then [(newRollingFile env config).1] else []) ∧
      Writer.stdout ∈ lg.sink ∧
      ∀ lvl msg fields,
        lg.log lvl msg fields = [] ∨
          (Writer.stdout, ({ level := lvl, msg := msg, fields := fields } : Record)) ∈
            lg.log lvl msg fields := by
  by_cases h : config.fileLoggingEnabled
  · refine ⟨ZapLogger.mk config.encodeLogsAsJson
        [Writer.stdout, (newRollingFile env config).1] st.defaultLoggerConfig.logLevel,
      by simp [Configure, h, newZapLogger], by simp [h], by simp, ?_⟩
    intro lvl msg fields
    by_cases he : (ZapLogger.mk config.encodeLogsAsJson
        [Writer.stdout, (newRollingFile env config).1]
        st.defaultLoggerConfig.logLevel).enabled lvl
    · right; simp [ZapLogger.log, he]
    · left; simp [ZapLogger.log, he]
  · refine ⟨ZapLogger.mk config.encodeLogsAsJson
        [Writer.stdout] st.defaultLoggerConfig.logLevel,
      by simp [Configure, h, newZapLogger], by simp [h], by simp, ?_⟩
    intro lvl msg fields
    by_cases he : (ZapLogger.mk config.encodeLogsAsJson [Writer.stdout]
        st.defaultLoggerConfig.logLevel).enabled lvl
    · right; simp [ZapLogger.log, he]
    · left; simp [ZapLogger.log, he]

/-- C7: a Debug call with capture-stack enabled appends exactly one extra
field to the supplied fields, keyed stacktrace, whose value names the call
site two frames above the facade entry (the caller of Debug, which is the
frame the environment provides to Stack) and is the empty string when caller
information is unavailable; with the flag disabled the record carries only
the caller-supplied fields. -/
theorem debug_stack_field_spec (env : Env) (st : LoggerState) (msg : String)
    (fields : List Field) :
    Log.Debug env st msg fields =
      st.defaultZapLogger.map (fun l =>
        l.log Level.debug msg
          (if st.defaultLoggerConfig.stackStrace then fields ++ [Stack env] else fields)) ∧
    (Stack env).key = "stacktrace" ∧
    (Stack env).value = FieldValue.str
      (match env.caller with
       | some f => f.file ++ ":" ++ f.funcName ++ ":" ++ toString f.line
       | none => "") := by
  refine ⟨?_, rfl, rfl⟩
  cases hl : st.defaultZapLogger <;> by_cases h : st.defaultLoggerConfig.stackStrace <;>
    simp [Log.Debug, hl, h]

/-- C8: Init with a non-empty filename component and a negative size or a
negative backup count returns the bad-size-or-backup error, leaving the
state untouched and performing no configuration. -/
theorem init_negative_size_or_backup (env : Env) (st : LoggerState) (file level : String)
    (size backup : Int) (stackstrace : Bool)
    (hname : basePath file ≠ "") (h : size < 0 ∨ backup < 0) :
    Init env st file level size backup stackstrace =
      { state := st, err := some "Bad size or backup", stdoutTrace := [], stderrTrace := [] } := by
  simp [Init, hname, h]

/-- C8 witness: the theorem applied at the concrete input of the spec. -/
theorem init_negative_size_or_backup_witness :
    basePath "/tmp/app.log" ≠ "" ∧ ((-1 : Int) < 0 ∨ (3 : Int) < 0) ∧
    Init env0 initialLoggerGo "/tmp/app.log" "info" (-1) 3 false =
      { state := initialLoggerGo, err := some "Bad size or backup",
        stdoutTrace := [], stderrTrace := [] } :=
  ⟨by decide, Or.inl (by decide),
    init_negative_size_or_backup env0 initialLoggerGo "/tmp/app.log" "info" (-1) 3 false
      (by decide) (Or.inl (by decide))⟩

/-- C9: Init with an empty level name, a path with a non-empty filename
component and non-negative size and backup succeeds, and the logger it
publishes filters at the error level: the empty level name defaults to
error before SetLogLevel is invoked. -/
theorem init_empty_level_defaults_error (env : Env) (st : LoggerState) (file : String)
    (size backup : Int) (stackstrace : Bool)
    (hname : basePath file ≠ "") (hs : 0 ≤ size) (hb : 0 ≤ backup) :
    (Init env st file "" size backup stackstrace).err = none ∧
    ∃ lg, (Init env st file "" size backup stackstrace).state.defaultZapLogger = some lg ∧
      lg.minLevel = Level.error := by
  have hneg : ¬(size < 0 ∨ backup < 0) := by omega
  refine ⟨?_, ?_⟩ <;>
    simp [Init, hname, hneg, SetLogLevel, Configure, newZapLogger]

/-- C9 witness: the theorem applied at the concrete input of the spec. -/
theorem init_empty_level_defaults_error_witness :
    basePath "/tmp/app.log" ≠ "" ∧ (0 : Int) ≤ 10 ∧ (0 : Int) ≤ 3 ∧
    (Init env0 initialLoggerGo "/tmp/app.log" "" 10 3 false).err = none :=
  ⟨by decide, by decide, by decide,
    (init_empty_level_defaults_error env0 initialLoggerGo "/tmp/app.log" 10 3 false
      (by decide) (by decide) (by decide)).1⟩

/-- C10: whenever Init returns an error, the package state is exactly what
it was before the call and nothing was printed: every error return happens
before Configure runs and before any state mutation. -/
theorem init_error_preserves_state (env : Env) (st : LoggerState) (file level : String)
    (size backup : Int) (stackstrace : Bool)
    (h : (Init env st file level size backup stackstrace).err ≠ none) :
    (Init env st file level size backup stackstrace).state = st ∧
    (Init env st file level size backup stackstrace).stdoutTrace = [] ∧
    (Init env st file level size backup stackstrace).stderrTrace = [] := by
  by_cases h1 : basePath file = ""
  · simp [Init, h1]
  by_cases h2 : size < 0 ∨ backup < 0
  · simp [Init, h1, h2]
  by_cases h0 : level = ""
  · exact absurd (by simp [Init, h1, h2, h0, SetLogLevel, Configure]) h
  by_cases hd : level = "debug"
  · exact absurd (by simp [Init, h1, h2, h0, hd, SetLogLevel, Configure]) h
  by_cases hi : level = "info"
  · exact absurd (by simp [Init, h1, h2, h0, hd, hi, SetLogLevel, Configure]) h
  by_cases hw : level = "warn"
  · exact absurd (by simp [Init, h1, h2, h0, hd, hi, hw, SetLogLevel, Configure]) h
  by_cases he : level = "error"
  · exact absurd (by simp [Init, h1, h2, h0, hd, hi, hw, he, SetLogLevel, Configure]) h
  · simp [Init, h1, h2, h0, hd, hi, hw, he, SetLogLevel]

/-- C10 witness: the theorem applied at a concrete erroring input, an
unrecognized level name. -/
theorem init_error_preserves_state_witness :
    (Init env0 initialLoggerGo "/tmp/app.log" "verbose" 10 3 false).err ≠ none ∧
    (Init env0 initialLoggerGo "/tmp/app.log" "verbose" 10 3 false).state = initialLoggerGo :=
  ⟨by decide,
    (init_error_preserves_state env0 initialLoggerGo "/tmp/app.log" "verbose" 10 3 false
      (by decide)).1⟩

end Logger
